import Mathlib

/-!
Verification of the request-forwarding core of the node-proxy repository
(`src/routes/index.js`, the `POST /proxy` handler).

The handler is embedded shallowly:
* JSON values are modelled by `JsValue` (numbers restricted to integers;
  floating-point numbers are outside the scope of this embedding).
* The caller-supplied request descriptor (`req.body`) is a record of
  optional `JsValue` fields; an absent `req.body` (falsy in JavaScript)
  is modelled by `none : Option Descriptor`.
* JavaScript truthiness of a field value is `truthy`.
* `JSON.stringify` is `jsonStringify`, `JSON.parse` is `jsonParse`
  (a fuel-based recursive-descent parser over the same restricted
  grammar: integer numbers, the escape sequences of the source strings
  except the unicode escape).
* The handler body is `proxyStep` (validation plus the conditional
  construction of the `got` options object) and `forward` (the whole
  request/response exchange, with the behaviour of the `got` call
  abstracted as a `GotOutcome`).
-/

/-- Characters that are written via their code to keep literals simple. -/
def quoteChar : Char := Char.ofNat 34

def backslashChar : Char := Char.ofNat 92

def slashChar : Char := Char.ofNat 47

def lbraceChar : Char := Char.ofNat 123

def rbraceChar : Char := Char.ofNat 125

def lbrackChar : Char := Char.ofNat 91

def rbrackChar : Char := Char.ofNat 93

def commaChar : Char := Char.ofNat 44

def colonChar : Char := Char.ofNat 58

def dashChar : Char := Char.ofNat 45

def quoteStr : String := Char.toString quoteChar

def backslashStr : String := Char.toString backslashChar

def lbraceStr : String := Char.toString lbraceChar

def rbraceStr : String := Char.toString rbraceChar

/-- A JSON value as handled by the proxy (numbers restricted to integers). -/
inductive JsValue where
  | null
  | bool (b : Bool)
  | num (n : Int)
  | str (s : String)
  | arr (items : List JsValue)
  | obj (fields : List (String × JsValue))
deriving Repr

/-- JavaScript truthiness of a `JsValue`: `null`, `false`, `0` and the
empty string are falsy; every other value (including every object and
array) is truthy. -/
def truthy : JsValue → Bool
  | JsValue.null => false
  | JsValue.bool b => b
  | JsValue.num n => n != 0
  | JsValue.str s => s != ""
  | JsValue.arr _ => true
  | JsValue.obj _ => true

/-- Truthiness of an optional descriptor field (`undefined` is falsy). -/
def fieldTruthy : Option JsValue → Bool
  | none => false
  | some v => truthy v

/-- One character of `JSON.stringify` string escaping. -/
def escapeChar (c : Char) : String :=
  if c = quoteChar then backslashStr ++ quoteStr
  else if c = backslashChar then backslashStr ++ backslashStr
  else if c = Char.ofNat 10 then backslashStr ++ "n"
  else if c = Char.ofNat 9 then backslashStr ++ "t"
  else if c = Char.ofNat 13 then backslashStr ++ "r"
  else if c = Char.ofNat 8 then backslashStr ++ "b"
  else if c = Char.ofNat 12 then backslashStr ++ "f"
  else Char.toString c

/-- `JSON.stringify` escaping of a whole string body (without the quotes). -/
def escapeString (s : String) : String :=
  String.join (s.toList.map escapeChar)

mutual

/-- `JSON.stringify` on the modelled JSON values. -/
def jsonStringify : JsValue → String
  | JsValue.null => "null"
  | JsValue.bool true => "true"
  | JsValue.bool false => "false"
  | JsValue.num n => toString n
  | JsValue.str s => quoteStr ++ escapeString s ++ quoteStr
  | JsValue.arr items => "[" ++ stringifyItems items ++ "]"
  | JsValue.obj fields => lbraceStr ++ stringifyFields fields ++ rbraceStr

/-- Comma-separated serialization of array items. -/
def stringifyItems : List JsValue → String
  | [] => ""
  | [v] => jsonStringify v
  | v :: vs => jsonStringify v ++ "," ++ stringifyItems vs

/-- Comma-separated serialization of object fields. -/
def stringifyFields : List (String × JsValue) → String
  | [] => ""
  | [(k, v)] => quoteStr ++ escapeString k ++ quoteStr ++ ":" ++ jsonStringify v
  | (k, v) :: fs =>
      quoteStr ++ escapeString k ++ quoteStr ++ ":" ++ jsonStringify v ++ "," ++
        stringifyFields fs

end

example : jsonStringify (JsValue.obj [("a", JsValue.num 1)]) =
    lbraceStr ++ quoteStr ++ "a" ++ quoteStr ++ ":1" ++ rbraceStr := rfl

/-- JSON whitespace. -/
def isJsonWs (c : Char) : Bool :=
  c = Char.ofNat 32 || c = Char.ofNat 10 || c = Char.ofNat 9 || c = Char.ofNat 13

/-- Drop leading JSON whitespace. -/
def skipWs : List Char → List Char
  | [] => []
  | c :: cs => if isJsonWs c then skipWs cs else c :: cs

/-- Decode one escape character of a JSON string (the unicode escape of
full JSON is outside the scope of this embedding). -/
def escDecode (c : Char) : Option Char :=
  if c = quoteChar then some quoteChar
  else if c = backslashChar then some backslashChar
  else if c = slashChar then some slashChar
  else if c = 'n' then some (Char.ofNat 10)
  else if c = 't' then some (Char.ofNat 9)
  else if c = 'r' then some (Char.ofNat 13)
  else if c = 'b' then some (Char.ofNat 8)
  else if c = 'f' then some (Char.ofNat 12)
  else none

/-- Parse the body of a JSON string after the opening quote; returns the
decoded string and the input after the closing quote. -/
def parseStringBody : List Char → Option (String × List Char)
  | [] => none
  | c :: cs =>
    if c = quoteChar then some ("", cs)
    else if c = backslashChar then
      match cs with
      | [] => none
      | e :: cs2 =>
        match escDecode e with
        | none => none
        | some d =>
          match parseStringBody cs2 with
          | none => none
          | some (s, rest) => some (Char.toString d ++ s, rest)
    else
      match parseStringBody cs with
      | none => none
      | some (s, rest) => some (Char.toString c ++ s, rest)

/-- Accumulate a run of decimal digits. -/
def parseNatAux : List Char → Nat → Nat × List Char
  | [], acc => (acc, [])
  | c :: cs, acc =>
    if c.isDigit then parseNatAux cs (acc * 10 + (c.toNat - 48)) else (acc, c :: cs)

/-- Parse a nonempty run of decimal digits. -/
def parseDigits (cs : List Char) : Option (Nat × List Char) :=
  match cs with
  | [] => none
  | c :: _ => if c.isDigit then some (parseNatAux cs 0) else none

mutual

/-- Fuel-based recursive-descent `JSON.parse` for one value; returns the
value and the unconsumed input. -/
def parseVal : Nat → List Char → Option (JsValue × List Char)
  | 0, _ => none
  | Nat.succ fuel, cs =>
    match skipWs cs with
    | 'n' :: 'u' :: 'l' :: 'l' :: rest => some (JsValue.null, rest)
    | 't' :: 'r' :: 'u' :: 'e' :: rest => some (JsValue.bool true, rest)
    | 'f' :: 'a' :: 'l' :: 's' :: 'e' :: rest => some (JsValue.bool false, rest)
    | c :: rest =>
      if c = quoteChar then
        match parseStringBody rest with
        | none => none
        | some (s, rest2) => some (JsValue.str s, rest2)
      else if c = lbrackChar then
        match skipWs rest with
        | c2 :: rest2 =>
          if c2 = rbrackChar then some (JsValue.arr [], rest2)
          else
            match parseItems fuel (c2 :: rest2) with
            | none => none
            | some (vs, rest3) => some (JsValue.arr vs, rest3)
        | [] => none
      else if c = lbraceChar then
        match skipWs rest with
        | c2 :: rest2 =>
          if c2 = rbraceChar then some (JsValue.obj [], rest2)
          else
            match parseFields fuel (c2 :: rest2) with
            | none => none
            | some (fs, rest3) => some (JsValue.obj fs, rest3)
        | [] => none
      else if c = dashChar then
        match parseDigits rest with
        | none => none
        | some (n, rest2) => some (JsValue.num (-(n : Int)), rest2)
      else if c.isDigit then
        match parseDigits (c :: rest) with
        | none => none
        | some (n, rest2) => some (JsValue.num (n : Int), rest2)
      else none
    | [] => none

/-- Parse the nonempty comma-separated items of an array, up to and
including the closing bracket. -/
def parseItems : Nat → List Char → Option (List JsValue × List Char)
  | 0, _ => none
  | Nat.succ fuel, cs =>
    match parseVal fuel cs with
    | none => none
    | some (v, rest) =>
      match skipWs rest with
      | [] => none
      | c :: rest2 =>
        if c = commaChar then
          match parseItems fuel rest2 with
          | none => none
          | some (vs, rest3) => some (v :: vs, rest3)
        else if c = rbrackChar then some ([v], rest2)
        else none

/-- Parse the nonempty comma-separated fields of an object, up to and
including the closing brace. -/
def parseFields : Nat → List Char → Option (List (String × JsValue) × List Char)
  | 0, _ => none
  | Nat.succ fuel, cs =>
    match skipWs cs with
    | [] => none
    | c :: rest =>
      if c = quoteChar then
        match parseStringBody rest with
        | none => none
        | some (k, rest2) =>
          match skipWs rest2 with
          | [] => none
          | c2 :: rest3 =>
            if c2 = colonChar then
              match parseVal fuel rest3 with
              | none => none
              | some (v, rest4) =>
                match skipWs rest4 with
                | [] => none
                | c3 :: rest5 =>
                  if c3 = commaChar then
                    match parseFields fuel rest5 with
                    | none => none
                    | some (fs, rest6) => some ((k, v) :: fs, rest6)
                  else if c3 = rbraceChar then some ([(k, v)], rest5)
                  else none
            else none
      else none

end

/-- `JSON.parse`: parse one value and require only whitespace after it;
`none` models the `SyntaxError` throw. -/
def jsonParse (s : String) : Option JsValue :=
  match parseVal (s.length + 1) s.toList with
  | none => none
  | some (v, rest) => if (skipWs rest).isEmpty then some v else none

example : jsonParse (lbraceStr ++ quoteStr ++ "k" ++ quoteStr ++ ":" ++
    quoteStr ++ "v" ++ quoteStr ++ rbraceStr) =
    some (JsValue.obj [("k", JsValue.str "v")]) := rfl

example : jsonParse "not-json" = none := rfl

example : jsonParse " [1, -2, true] " =
    some (JsValue.arr [JsValue.num 1, JsValue.num (-2), JsValue.bool true]) := rfl

/-- The caller-supplied request descriptor (`req.body` of `POST /proxy`):
a record of optional JSON fields, `none` modelling an absent
(`undefined`) property. -/
structure Descriptor where
  url : Option JsValue := none
  method : Option JsValue := none
  body : Option JsValue := none
  timeout : Option JsValue := none
  retries : Option JsValue := none
  headers : Option JsValue := none
deriving Repr

/-- The empty object substituted by `req.body = req.body || \x7b\x7d`. -/
def emptyDescriptor : Descriptor := {}

/-- The options object handed to `got`: `method` is always set; the other
keys are present exactly when the handler's truthiness checks pass
(`none` = key absent, the client default applies). -/
structure GotOptions where
  method : JsValue
  body : Option String := none
  timeout : Option JsValue := none
  retries : Option JsValue := none
  headers : Option JsValue := none
deriving Repr

/-- The conditional construction of the `got` options object
(`src/routes/index.js` lines 31-49): `body` is `JSON.stringify`-ed,
`timeout`, `retries` and `headers` are passed through unchanged, and each
of the four keys is added only when the descriptor field is truthy. -/
def buildOptions (d : Descriptor) : GotOptions :=
  { method := d.method.getD JsValue.null
    body :=
      if fieldTruthy d.body then some (jsonStringify (d.body.getD JsValue.null)) else none
    timeout := if fieldTruthy d.timeout then d.timeout else none
    retries := if fieldTruthy d.retries then d.retries else none
    headers := if fieldTruthy d.headers then d.headers else none }

/-- Exact body text of the 400 answer when `url` is missing. -/
def urlMissing : String := "\"url\" is missing."

/-- Exact body text of the 400 answer when `method` is missing. -/
def methodMissing : String := "\"method\" is missing."

/-- What the handler does before any network I/O: either it answers 400
with a message (and `got` is never invoked), or it invokes `got` with the
descriptor's url and the assembled options. -/
inductive HandlerStep where
  | badRequest (message : String)
  | callGot (url : JsValue) (options : GotOptions)
deriving Repr

/-- The synchronous part of the `POST /proxy` handler, after the
`req.body` normalization: the two truthiness validations (answering 400
with the exact message), then the options construction and the `got`
call. -/
def proxyStep (b : Descriptor) : HandlerStep :=
  if !fieldTruthy b.url then HandlerStep.badRequest urlMissing
  else if !fieldTruthy b.method then HandlerStep.badRequest methodMissing
  else HandlerStep.callGot (b.url.getD JsValue.null) (buildOptions b)

/-- The error value a rejected `got` promise carries; `statusCode` is set
for HTTP errors (non-2xx upstream answers) and absent for transport
errors without a response. -/
structure GotError where
  statusCode : Option Nat
deriving Repr

/-- The observable behaviour of the `got` call: it either resolves with a
response whose body is the given text, or rejects with an error. -/
inductive GotOutcome where
  | success (respBody : String)
  | failure (err : GotError)
deriving Repr

/-- The error the handler answers with (`res.status(400).json(...)`):
either the rejected `got` error, or the `JSON.parse` throw caught by the
chained rejection handler. -/
inductive ProxyError where
  | upstream (err : GotError)
  | parseFailure
deriving Repr

/-- The response the handler writes: 400 with a message object on
validation failure, 200 with the parsed JSON on success, or 400 with an
error object. -/
inductive ProxyResponse where
  | missing (message : String)
  | ok (result : JsValue)
  | err (e : ProxyError)
deriving Repr

/-- The promise chain after `got` (`src/routes/index.js` lines 52-61):
on resolution, `res.json(JSON.parse(response.body))`, whose `JSON.parse`
throw rejects the chain; the rejection handler answers
`res.status(400).json(\x7berr: err\x7d)` for both that throw and a
rejected `got` call. -/
def handleGot (outcome : GotOutcome) : ProxyResponse :=
  match outcome with
  | GotOutcome.success respBody =>
    match jsonParse respBody with
    | some v => ProxyResponse.ok v
    | none => ProxyResponse.err ProxyError.parseFailure
  | GotOutcome.failure e => ProxyResponse.err (ProxyError.upstream e)

/-- Map the synchronous step and the network behaviour to the response
written to the caller. -/
def applyStep (step : HandlerStep) (net : GotOutcome) : ProxyResponse :=
  match step with
  | HandlerStep.badRequest msg => ProxyResponse.missing msg
  | HandlerStep.callGot _ _ => handleGot net

/-- The whole `POST /proxy` exchange: normalize `req.body`
(`req.body = req.body || \x7b\x7d`, `none` modelling a falsy `req.body`),
run the handler, and return the final value of `req.body` together with
the response. The pair's first component records every write the handler
ever makes to the descriptor: there is none after the normalization. -/
def forward (reqBody : Option Descriptor) (net : GotOutcome) :
    Descriptor × ProxyResponse :=
  (reqBody.getD emptyDescriptor,
    applyStep (proxyStep (reqBody.getD emptyDescriptor)) net)

/-- A descriptor with only `url` (a GET without optional fields), used as
a concrete input in witnesses. -/
def descGet (u : String) : Descriptor :=
  { url := some (JsValue.str u), method := some (JsValue.str "GET") }

/-- Claim C1: for every descriptor whose `url` is absent or the empty
string, the handler answers 400 with exactly the `url` missing message
and never invokes `got`; for every descriptor whose `url` is a nonempty
string but whose `method` is absent or the empty string, it answers 400
with exactly the `method` missing message and never invokes `got`
(a `HandlerStep.badRequest` step is the 400 answer without a `got`
call; in particular the empty descriptor yields the `url` error). -/
theorem proxy_missing_field_validation (d : Descriptor) :
    (d.url = none ∨ d.url = some (JsValue.str "") →
      proxyStep d = HandlerStep.badRequest urlMissing ∧
      ∀ net : GotOutcome,
        (forward (some d) net).2 = ProxyResponse.missing urlMissing) ∧
    (∀ s : String, d.url = some (JsValue.str s) → s ≠ "" →
      (d.method = none ∨ d.method = some (JsValue.str "")) →
      proxyStep d = HandlerStep.badRequest methodMissing ∧
      ∀ net : GotOutcome,
        (forward (some d) net).2 = ProxyResponse.missing methodMissing) := by
  constructor
  · intro h
    have hu : fieldTruthy d.url = false := by
      rcases h with h | h <;> simp [h, fieldTruthy, truthy]
    have hstep : proxyStep d = HandlerStep.badRequest urlMissing := by
      simp [proxyStep, hu]
    exact ⟨hstep, fun net => by simp [forward, applyStep, hstep]⟩
  · intro s hs hne hm
    have hu : fieldTruthy d.url = true := by
      simp [hs, fieldTruthy, truthy, hne]
    have hmf : fieldTruthy d.method = false := by
      rcases hm with h | h <;> simp [h, fieldTruthy, truthy]
    have hstep : proxyStep d = HandlerStep.badRequest methodMissing := by
      simp [proxyStep, hu, hmf]
    exact ⟨hstep, fun net => by simp [forward, applyStep, hstep]⟩

theorem proxy_missing_field_validation_witness :
    proxyStep emptyDescriptor = HandlerStep.badRequest urlMissing ∧
    proxyStep { url := some (JsValue.str "http://x") } =
      HandlerStep.badRequest methodMissing :=
  ⟨((proxy_missing_field_validation emptyDescriptor).1 (Or.inl rfl)).1,
   ((proxy_missing_field_validation { url := some (JsValue.str "http://x") }).2
      "http://x" rfl (by decide) (Or.inl rfl)).1⟩

/-- Claim C2: for every descriptor with truthy `url` and `method`, when
the `got` call resolves and its response body parses as JSON value `v`,
the handler answers with `v` (the `res.json(JSON.parse(response.body))`
branch). -/
theorem proxy_success_json_forwarded (d : Descriptor) (s : String) (v : JsValue)
    (hu : fieldTruthy d.url = true) (hm : fieldTruthy d.method = true)
    (hp : jsonParse s = some v) :
    (forward (some d) (GotOutcome.success s)).2 = ProxyResponse.ok v := by
  simp [forward, applyStep, proxyStep, hu, hm, handleGot, hp]

theorem proxy_success_json_forwarded_witness :
    (forward (some (descGet "http://x/ok"))
      (GotOutcome.success (lbraceStr ++ quoteStr ++ "k" ++ quoteStr ++ ":" ++
        quoteStr ++ "v" ++ quoteStr ++ rbraceStr))).2 =
    ProxyResponse.ok (JsValue.obj [("k", JsValue.str "v")]) :=
  proxy_success_json_forwarded _ _ _ rfl rfl rfl

/-- Claim C3: for every descriptor with truthy `url` and `method`, when
the `got` call rejects with error `e` (network error, non-2xx status,
timeout or retries exhausted), the handler answers 400 with an error
object carrying `e` verbatim — in particular `e.statusCode` when the
upstream produced one — and the rejection never escapes the chained
rejection handler. -/
theorem proxy_upstream_failure_reported (d : Descriptor) (e : GotError)
    (hu : fieldTruthy d.url = true) (hm : fieldTruthy d.method = true) :
    (forward (some d) (GotOutcome.failure e)).2 =
      ProxyResponse.err (ProxyError.upstream e) := by
  simp [forward, applyStep, proxyStep, hu, hm, handleGot]

theorem proxy_upstream_failure_reported_witness :
    (forward (some (descGet "http://x/bad"))
      (GotOutcome.failure { statusCode := some 500 })).2 =
    ProxyResponse.err (ProxyError.upstream { statusCode := some 500 }) :=
  proxy_upstream_failure_reported _ _ rfl rfl

/-- Claim C4: for every descriptor with truthy `url` and `method`, when
the `got` call resolves but its response body is not valid JSON, the
`JSON.parse` throw is caught by the chained rejection handler and the
handler answers 400 with an error object (not an uncaught fault, not a
silent success). -/
theorem proxy_malformed_response_reported (d : Descriptor) (s : String)
    (hu : fieldTruthy d.url = true) (hm : fieldTruthy d.method = true)
    (hp : jsonParse s = none) :
    (forward (some d) (GotOutcome.success s)).2 =
      ProxyResponse.err ProxyError.parseFailure := by
  simp [forward, applyStep, proxyStep, hu, hm, handleGot, hp]

theorem proxy_malformed_response_reported_witness :
    (forward (some (descGet "http://x/err")) (GotOutcome.success "not-json")).2 =
    ProxyResponse.err ProxyError.parseFailure :=
  proxy_malformed_response_reported _ _ rfl rfl rfl

/-- Claim C5: every absent optional field leaves the corresponding `got`
option unset, and when `body`, `timeout`, `retries` and `headers` are all
absent the assembled options object holds only the `method` key (every
other key at the client default `none`); under passing validation the
handler calls `got` with exactly that object. -/
theorem proxy_absent_optionals_default (d : Descriptor) :
    (d.body = none → (buildOptions d).body = none) ∧
    (d.timeout = none → (buildOptions d).timeout = none) ∧
    (d.retries = none → (buildOptions d).retries = none) ∧
    (d.headers = none → (buildOptions d).headers = none) ∧
    (d.body = none → d.timeout = none → d.retries = none → d.headers = none →
      buildOptions d = { method := d.method.getD JsValue.null } ∧
      (fieldTruthy d.url = true → fieldTruthy d.method = true →
        proxyStep d =
          HandlerStep.callGot (d.url.getD JsValue.null)
            { method := d.method.getD JsValue.null })) := by
  refine ⟨fun h => by simp [buildOptions, fieldTruthy, h],
    fun h => by simp [buildOptions, fieldTruthy, h],
    fun h => by simp [buildOptions, fieldTruthy, h],
    fun h => by simp [buildOptions, fieldTruthy, h],
    fun hb ht hr hh => ?_⟩
  have hopts : buildOptions d = { method := d.method.getD JsValue.null } := by
    simp [buildOptions, fieldTruthy, hb, ht, hr, hh]
  exact ⟨hopts, fun hu hm => by simp [proxyStep, hu, hm, hopts]⟩

theorem proxy_absent_optionals_default_witness :
    buildOptions (descGet "http://x") = { method := JsValue.str "GET" } ∧
    proxyStep (descGet "http://x") =
      HandlerStep.callGot (JsValue.str "http://x")
        { method := JsValue.str "GET" } :=
  ⟨((proxy_absent_optionals_default (descGet "http://x")).2.2.2.2
      rfl rfl rfl rfl).1,
   ((proxy_absent_optionals_default (descGet "http://x")).2.2.2.2
      rfl rfl rfl rfl).2 rfl rfl⟩

/-- Claim C6 as stated is false on the code: the descriptor with
`body = false` has `body` present, and the claim then demands the
outbound option `some (jsonStringify (JsValue.bool false))`
(= `some "false"`), but the handler's truthiness check drops the falsy
value and leaves the option unset. -/
theorem proxy_present_field_dropped_cex :
    (buildOptions { descGet "http://x" with body := some (JsValue.bool false) }).body
        = none ∧
    jsonStringify (JsValue.bool false) = "false" ∧
    (none : Option String) ≠ some (jsonStringify (JsValue.bool false)) :=
  ⟨rfl, rfl, by decide⟩

/-- Claim C6 amended: every optional field present with a truthy value is
translated into the corresponding `got` option — `body` to its
`JSON.stringify` serialization, `timeout`, `retries` and `headers` passed
through unchanged. -/
theorem proxy_truthy_fields_translated (d : Descriptor) :
    (∀ v, d.body = some v → truthy v = true →
      (buildOptions d).body = some (jsonStringify v)) ∧
    (∀ v, d.timeout = some v → truthy v = true →
      (buildOptions d).timeout = some v) ∧
    (∀ v, d.retries = some v → truthy v = true →
      (buildOptions d).retries = some v) ∧
    (∀ v, d.headers = some v → truthy v = true →
      (buildOptions d).headers = some v) := by
  refine ⟨fun v hv ht => ?_, fun v hv ht => ?_, fun v hv ht => ?_,
    fun v hv ht => ?_⟩ <;>
    simp [buildOptions, fieldTruthy, hv, ht]

theorem proxy_truthy_fields_translated_witness :
    (buildOptions { descGet "http://x" with
        headers := some (JsValue.obj [("X-Test", JsValue.str "1")]) }).headers =
      some (JsValue.obj [("X-Test", JsValue.str "1")]) ∧
    (buildOptions { descGet "http://x" with
        body := some (JsValue.obj [("a", JsValue.num 1)]) }).body =
      some (jsonStringify (JsValue.obj [("a", JsValue.num 1)])) :=
  ⟨(proxy_truthy_fields_translated { descGet "http://x" with
      headers := some (JsValue.obj [("X-Test", JsValue.str "1")]) }).2.2.2
      _ rfl rfl,
   (proxy_truthy_fields_translated { descGet "http://x" with
      body := some (JsValue.obj [("a", JsValue.num 1)]) }).1 _ rfl rfl⟩

/-- Claim C7 as stated is false on the code: `retries = 0` is a present
non-negative integer value, yet the handler's `if (req.body.retries)`
truthiness check treats `0` as absent and leaves the `retries` option
unset instead of `some (JsValue.num 0)`. -/
theorem proxy_retries_zero_dropped_cex :
    (buildOptions { descGet "http://x" with retries := some (JsValue.num 0) }).retries
        = none ∧
    (buildOptions { descGet "http://x" with retries := some (JsValue.num 0) }).retries
        ≠ some (JsValue.num 0) :=
  ⟨rfl, by simp [buildOptions, fieldTruthy, truthy]⟩

/-- Claim C7 amended: a present `retries` with nonzero integer value (in
particular every positive integer) is passed through to the `retries`
option unchanged; a present `retries` of `0` is silently dropped (the
option stays unset, so the client default applies). -/
theorem proxy_retries_nonzero_passed (d : Descriptor) :
    (∀ n : Int, d.retries = some (JsValue.num n) → n ≠ 0 →
      (buildOptions d).retries = some (JsValue.num n)) ∧
    (d.retries = some (JsValue.num 0) → (buildOptions d).retries = none) := by
  constructor
  · intro n hn h0
    simp [buildOptions, fieldTruthy, hn, truthy, h0]
  · intro h
    simp [buildOptions, fieldTruthy, h, truthy]

theorem proxy_retries_nonzero_passed_witness :
    (buildOptions { descGet "http://x" with retries := some (JsValue.num 2) }).retries
        = some (JsValue.num 2) :=
  (proxy_retries_nonzero_passed { descGet "http://x" with
      retries := some (JsValue.num 2) }).1 2 rfl (by decide)

/-- Claim C8: the handler never mutates the supplied descriptor — on
every path (validation failure, success, upstream error) the final value
of `req.body` recorded by `forward` has every field equal to its value on
entry. -/
theorem proxy_descriptor_not_mutated (d : Descriptor) (net : GotOutcome) :
    ((forward (some d) net).1).url = d.url ∧
    ((forward (some d) net).1).method = d.method ∧
    ((forward (some d) net).1).body = d.body ∧
    ((forward (some d) net).1).timeout = d.timeout ∧
    ((forward (some d) net).1).retries = d.retries ∧
    ((forward (some d) net).1).headers = d.headers :=
  ⟨rfl, rfl, rfl, rfl, rfl, rfl⟩

/-- Claim C9: an optional field present with a falsy value (`0`, `false`,
the empty string, `null`) is omitted from the `got` options exactly as if
it were absent — the option is unset and the whole options object equals
the one built from the descriptor with that field removed. -/
theorem proxy_falsy_fields_omitted (d : Descriptor) (v : JsValue)
    (hf : truthy v = false) :
    (d.body = some v → (buildOptions d).body = none ∧
      buildOptions d = buildOptions { d with body := none }) ∧
    (d.timeout = some v → (buildOptions d).timeout = none ∧
      buildOptions d = buildOptions { d with timeout := none }) ∧
    (d.retries = some v → (buildOptions d).retries = none ∧
      buildOptions d = buildOptions { d with retries := none }) ∧
    (d.headers = some v → (buildOptions d).headers = none ∧
      buildOptions d = buildOptions { d with headers := none }) := by
  refine ⟨fun h => ?_, fun h => ?_, fun h => ?_, fun h => ?_⟩ <;>
    constructor <;>
    simp [buildOptions, fieldTruthy, h, hf]

theorem proxy_falsy_fields_omitted_witness :
    (buildOptions { descGet "http://x" with timeout := some (JsValue.num 0) }).timeout
        = none ∧
    buildOptions { descGet "http://x" with timeout := some (JsValue.num 0) } =
      buildOptions { { descGet "http://x" with timeout := some (JsValue.num 0) } with
        timeout := none } :=
  (proxy_falsy_fields_omitted { descGet "http://x" with
      timeout := some (JsValue.num 0) } (JsValue.num 0) rfl).2.1 rfl

/-- Claim C10: when the incoming request carries no parsed body at all
(`req.body` falsy), the handler substitutes the empty object and answers
400 with the `url` missing message; the embedding is a total function, so
no undefined dereference or throw occurs. -/
theorem proxy_no_body_defaults_empty (net : GotOutcome) :
    forward none net = (emptyDescriptor, ProxyResponse.missing urlMissing) :=
  rfl


